import Mathlib

/-!
Shallow embedding of `ac_shifting_leds.js`, a utility that reads Assetto
Corsa / Codemasters telemetry over UDP and drives the shifting LEDs of a
Logitech G29 wheel.

Modelling conventions:
* a Node `Buffer` is a `List Nat` of bytes;
* `Buffer.readUInt32LE` / `readUInt8` / `readFloatLE` throw a range error
  when the read passes the end of the buffer, so a reader action maps the
  `BufferReader` to an `Option` of the value and the advanced reader, with
  `none` standing for a thrown error;
* IEEE-754 floats on the wire are kept as their raw 4-byte words (no claim
  inspects a decoded wire float); engine RPM values at the indicator layer
  are modelled as exact rationals, and the JS double literals 0.2, 0.4,
  0.65, 0.9, 0.95 as the rationals 1/5, 2/5, 13/20, 9/10, 19/20;
* timers are modelled as state flags (`reconnectTimerOn`,
  `flashLEDsTimer`, the latter carrying its period in milliseconds);
* each event-handler method becomes a function from the object state to
  the new state together with the list of datagrams or device commands it
  emits during that call.
-/

namespace ACShiftingLeds

/-- `BufferReader` (source lines 27-68): a byte buffer with a read cursor. -/
structure BufferReader where
  buffer : List Nat
  offset : Nat
deriving DecidableEq

/-- Reader actions take the reader, return the extracted value and the
advanced reader, and may fail (`none` models a thrown range error from the
underlying Node buffer reads). -/
abbrev ReadM (α : Type) := BufferReader → Option (α × BufferReader)

/-- The little-endian 32-bit word at `off` (out-of-range bytes read as 0;
`readUInt32LE` only returns it when all four bytes are in range). -/
def word32 (b : List Nat) (off : Nat) : Nat :=
  b.getD off 0 + 256 * b.getD (off + 1) 0
    + 256 ^ 2 * b.getD (off + 2) 0 + 256 ^ 3 * b.getD (off + 3) 0

/-- `Buffer.readUInt32LE`: little-endian 32-bit read, throwing when fewer
than 4 bytes remain. -/
def readUInt32LE (b : List Nat) (off : Nat) : Option Nat :=
  if off + 4 ≤ b.length then some (word32 b off) else none

/-- `Buffer.readUInt8`: single-byte read, throwing past the end. -/
def readUInt8 (b : List Nat) (off : Nat) : Option Nat :=
  if off + 1 ≤ b.length then some (b.getD off 0) else none

/-- `Buffer.readFloatLE` bounds behaviour; the float value is kept as the
raw little-endian 4-byte word. -/
def readFloatBitsLE (b : List Nat) (off : Nat) : Option Nat :=
  readUInt32LE b off

/-- `BufferReader.uint32` (lines 41-45). -/
def uint32 : ReadM Nat := fun r =>
  (readUInt32LE r.buffer r.offset).map (fun n => (n, ⟨r.buffer, r.offset + 4⟩))

/-- `BufferReader.uint8` (lines 47-51). -/
def uint8 : ReadM Nat := fun r =>
  (readUInt8 r.buffer r.offset).map (fun n => (n, ⟨r.buffer, r.offset + 1⟩))

/-- `BufferReader.float` (lines 53-57). -/
def float : ReadM Nat := fun r =>
  (readFloatBitsLE r.buffer r.offset).map (fun n => (n, ⟨r.buffer, r.offset + 4⟩))

/-- `BufferReader.boolean` (lines 59-63). -/
def boolean : ReadM Bool := fun r =>
  (readUInt8 r.buffer r.offset).map (fun n => (n != 0, ⟨r.buffer, r.offset + 1⟩))

/-- `BufferReader.skip` (lines 65-67): cursor advance only, no bounds check,
never fails. -/
def skip (skipLen : Nat) : ReadM Unit := fun r =>
  some ((), ⟨r.buffer, r.offset + skipLen⟩)

/-- JS line-terminator code units, which `.` in a regex does not match:
LF, CR, U+2028, U+2029. -/
def isLineTerminator (c : Nat) : Bool :=
  c == 10 || c == 13 || c == 8232 || c == 8233

/-- `Buffer.toString('utf16le', start, end)`: pair up bytes little-endian
into UTF-16 code units (a JS string is a code-unit sequence); a trailing
odd byte is dropped. -/
def utf16Units : List Nat → List Nat
  | b0 :: b1 :: rest => (b0 + 256 * b1) :: utf16Units rest
  | _ => []

/-- The replacement `string.replace(/\%.*$/g, '')` of line 36.  Without the
multiline flag, `$` only matches at the very end of the string and `.`
matches no line terminator, so the regex matches (and deletes) exactly the
suffix starting at the leftmost `%` (code unit 37) that is followed by no
line-terminator code unit. -/
def stripAfterPercent : List Nat → List Nat
  | [] => []
  | c :: rest =>
    if c == 37 && rest.all (fun u => !isLineTerminator u) then []
    else c :: stripAfterPercent rest

/-- `BufferReader.stringUtf16` (lines 33-39): decode the next `length`
bytes as UTF-16LE (the slice clamps at the buffer end and never throws),
apply the `%`-stripping replacement, and advance the cursor by exactly
`length` bytes. -/
def stringUtf16 (length : Nat) : ReadM (List Nat) := fun r =>
  some (stripAfterPercent (utf16Units ((r.buffer.drop r.offset).take length)),
        ⟨r.buffer, r.offset + length⟩)

def OPERATION_ID_HANDSHAKE : Nat := 0
def OPERATION_ID_SUBSCRIBE_UPDATE : Nat := 1
def OPERATION_ID_SUBSCRIBE_SPOT : Nat := 2
def OPERATION_ID_SUBSCRIBE_DISMISS : Nat := 3

/-- Little-endian 4-byte encoding used by `buffer.writeUInt32LE`. -/
def toUInt32LE (n : Nat) : List Nat :=
  [n % 256, n / 256 % 256, n / 256 ^ 2 % 256, n / 256 ^ 3 % 256]

/-- `ACClient._handshakeRequest` (lines 211-217): a 12-byte datagram of
three little-endian 32-bit words `(0, 0, operationId)`. -/
def handshakeRequest (operationId : Nat) : List Nat :=
  toUInt32LE 0 ++ toUInt32LE 0 ++ toUInt32LE operationId

/-- Decoded handshake response (lines 219-229); strings are UTF-16
code-unit lists. -/
structure HandshakeResponse where
  carName : List Nat
  driverName : List Nat
  identifier : Nat
  version : Nat
  trackName : List Nat
  trackConfig : List Nat
deriving DecidableEq

/-- Reader for `ACClient._parseHandshakeResponse` (lines 219-229). -/
def handshakeResponseReader : ReadM HandshakeResponse := fun r => do
  let (carName, r) ← stringUtf16 100 r
  let (driverName, r) ← stringUtf16 100 r
  let (identifier, r) ← uint32 r
  let (version, r) ← uint32 r
  let (trackName, r) ← stringUtf16 100 r
  let (trackConfig, r) ← stringUtf16 100 r
  pure (⟨carName, driverName, identifier, version, trackName, trackConfig⟩, r)

def parseHandshakeResponse (msg : List Nat) : Option HandshakeResponse :=
  (handshakeResponseReader ⟨msg, 0⟩).map (fun p => p.1)

/-- One decoded 100-byte string field starting at `off`. -/
def stringField (msg : List Nat) (off : Nat) : List Nat :=
  stripAfterPercent (utf16Units ((msg.drop off).take 100))

/-- The handshake response the parser produces on a buffer long enough for
both integer fields (string fields clamp at the buffer end). -/
def decodedHandshake (msg : List Nat) : HandshakeResponse :=
  ⟨stringField msg 0, stringField msg 100, word32 msg 200, word32 msg 204,
   stringField msg 208, stringField msg 308⟩

/-- A four-wheel tuple of raw float words. -/
structure WheelQuad where
  a : Nat
  b : Nat
  c : Nat
  d : Nat
deriving DecidableEq

/-- The repeated `{a, b, c, d}` four-float pattern of the telemetry record. -/
def wheelQuad : ReadM WheelQuad := fun r => do
  let (a, r) ← float r
  let (b, r) ← float r
  let (c, r) ← float r
  let (d, r) ← float r
  pure (⟨a, b, c, d⟩, r)

/-- The four raw float words a `wheelQuad` read starting at `off` yields. -/
def quadAt (msg : List Nat) (off : Nat) : WheelQuad :=
  ⟨word32 msg off, word32 msg (off + 4), word32 msg (off + 8),
   word32 msg (off + 12)⟩

structure CarCoordinates where
  x : Nat
  y : Nat
  z : Nat
deriving DecidableEq

/-- The decoded RT car info record (lines 235-369); float fields hold raw
little-endian words. -/
structure RTCarInfo where
  identifier : Nat
  size : Nat
  speed_Kmh : Nat
  speed_Mph : Nat
  speed_Ms : Nat
  isAbsEnabled : Nat
  isAbsInAction : Nat
  isTcInAction : Nat
  isTcEnabled : Nat
  isInPit : Nat
  isEngineLimiterOn : Nat
  accG_vertical : Nat
  accG_horizontal : Nat
  accG_frontal : Nat
  lapTime : Nat
  lastLap : Nat
  bestLap : Nat
  lapCount : Nat
  gas : Nat
  brake : Nat
  clutch : Nat
  engineRPM : Nat
  steer : Nat
  gear : Nat
  cgHeight : Nat
  wheelAngularSpeed : WheelQuad
  slipAngle : WheelQuad
  slipAngle_ContactPatch : WheelQuad
  slipRatio : WheelQuad
  tyreSlip : WheelQuad
  ndSlip : WheelQuad
  load : WheelQuad
  Dy : WheelQuad
  Mz : WheelQuad
  tyreDirtyLevel : WheelQuad
  camberRAD : WheelQuad
  tyreRadius : WheelQuad
  tyreLoadedRadius : WheelQuad
  suspensionHeight : WheelQuad
  carPositionNormalized : Nat
  carSlope : Nat
  carCoordinates : CarCoordinates
deriving DecidableEq

/-!
Reader for `ACClient._parseRTCarInfo` (lines 235-369).  The source decodes
all fields in one object literal; here the read sequence is split into
short groups purely to keep term sizes small.  Concatenating the groups in
order gives exactly the source's field-for-field read sequence, including
the 2-byte skip of the reserved region.
-/

/-- `identifier` through `speed_Ms` (lines 239-244). -/
structure RTHead where
  identifier : Nat
  size : Nat
  speed_Kmh : Nat
  speed_Mph : Nat
  speed_Ms : Nat

def rtHeadReader : ReadM RTHead := fun r => do
  let (identifier, r) ← uint32 r
  let (size, r) ← uint32 r
  let (speed_Kmh, r) ← float r
  let (speed_Mph, r) ← float r
  let (speed_Ms, r) ← float r
  pure (⟨identifier, size, speed_Kmh, speed_Mph, speed_Ms⟩, r)

/-- `isAbsEnabled` through `isEngineLimiterOn` plus the 2-byte reserved
skip (lines 246-253). -/
structure RTFlags where
  isAbsEnabled : Nat
  isAbsInAction : Nat
  isTcInAction : Nat
  isTcEnabled : Nat
  isInPit : Nat
  isEngineLimiterOn : Nat

def rtFlagsReader : ReadM RTFlags := fun r => do
  let (isAbsEnabled, r) ← uint8 r
  let (isAbsInAction, r) ← uint8 r
  let (isTcInAction, r) ← uint8 r
  let (isTcEnabled, r) ← uint8 r
  let (isInPit, r) ← uint8 r
  let (isEngineLimiterOn, r) ← uint8 r
  let (_, r) ← skip 2 r
  pure (⟨isAbsEnabled, isAbsInAction, isTcInAction, isTcEnabled, isInPit,
    isEngineLimiterOn⟩, r)

/-- `accG_vertical` through `lapCount` (lines 255-262). -/
structure RTLaps where
  accG_vertical : Nat
  accG_horizontal : Nat
  accG_frontal : Nat
  lapTime : Nat
  lastLap : Nat
  bestLap : Nat
  lapCount : Nat

def rtLapsReader : ReadM RTLaps := fun r => do
  let (accG_vertical, r) ← float r
  let (accG_horizontal, r) ← float r
  let (accG_frontal, r) ← float r
  let (lapTime, r) ← uint32 r
  let (lastLap, r) ← uint32 r
  let (bestLap, r) ← uint32 r
  let (lapCount, r) ← uint32 r
  pure (⟨accG_vertical, accG_horizontal, accG_frontal, lapTime, lastLap,
    bestLap, lapCount⟩, r)

/-- `gas` through `cgHeight` (lines 264-270). -/
structure RTDriveline where
  gas : Nat
  brake : Nat
  clutch : Nat
  engineRPM : Nat
  steer : Nat
  gear : Nat
  cgHeight : Nat

def rtDrivelineReader : ReadM RTDriveline := fun r => do
  let (gas, r) ← float r
  let (brake, r) ← float r
  let (clutch, r) ← float r
  let (engineRPM, r) ← float r
  let (steer, r) ← float r
  let (gear, r) ← uint32 r
  let (cgHeight, r) ← float r
  pure (⟨gas, brake, clutch, engineRPM, steer, gear, cgHeight⟩, r)

/-- `wheelAngularSpeed` through `load` (lines 272-313). -/
structure RTQuadsA where
  wheelAngularSpeed : WheelQuad
  slipAngle : WheelQuad
  slipAngle_ContactPatch : WheelQuad
  slipRatio : WheelQuad
  tyreSlip : WheelQuad
  ndSlip : WheelQuad
  load : WheelQuad

def rtQuadsAReader : ReadM RTQuadsA := fun r => do
  let (wheelAngularSpeed, r) ← wheelQuad r
  let (slipAngle, r) ← wheelQuad r
  let (slipAngle_ContactPatch, r) ← wheelQuad r
  let (slipRatio, r) ← wheelQuad r
  let (tyreSlip, r) ← wheelQuad r
  let (ndSlip, r) ← wheelQuad r
  let (load, r) ← wheelQuad r
  pure (⟨wheelAngularSpeed, slipAngle, slipAngle_ContactPatch, slipRatio,
    tyreSlip, ndSlip, load⟩, r)

/-- `Dy` through `suspensionHeight` (lines 314-357). -/
structure RTQuadsB where
  Dy : WheelQuad
  Mz : WheelQuad
  tyreDirtyLevel : WheelQuad
  camberRAD : WheelQuad
  tyreRadius : WheelQuad
  tyreLoadedRadius : WheelQuad
  suspensionHeight : WheelQuad

def rtQuadsBReader : ReadM RTQuadsB := fun r => do
  let (dy, r) ← wheelQuad r
  let (mz, r) ← wheelQuad r
  let (tyreDirtyLevel, r) ← wheelQuad r
  let (camberRAD, r) ← wheelQuad r
  let (tyreRadius, r) ← wheelQuad r
  let (tyreLoadedRadius, r) ← wheelQuad r
  let (suspensionHeight, r) ← wheelQuad r
  pure (⟨dy, mz, tyreDirtyLevel, camberRAD, tyreRadius, tyreLoadedRadius,
    suspensionHeight⟩, r)

/-- `carPositionNormalized` through `carCoordinates` (lines 359-367). -/
structure RTTail where
  carPositionNormalized : Nat
  carSlope : Nat
  carCoordinates : CarCoordinates

def rtTailReader : ReadM RTTail := fun r => do
  let (carPositionNormalized, r) ← float r
  let (carSlope, r) ← float r
  let (x, r) ← float r
  let (y, r) ← float r
  let (z, r) ← float r
  pure (⟨carPositionNormalized, carSlope, ⟨x, y, z⟩⟩, r)

/-- The full record reader: the seven groups above in source order. -/
def rtCarInfoReader : ReadM RTCarInfo := fun r => do
  let (h, r) ← rtHeadReader r
  let (f, r) ← rtFlagsReader r
  let (l, r) ← rtLapsReader r
  let (d, r) ← rtDrivelineReader r
  let (qa, r) ← rtQuadsAReader r
  let (qb, r) ← rtQuadsBReader r
  let (t, r) ← rtTailReader r
  pure (⟨h.identifier, h.size, h.speed_Kmh, h.speed_Mph, h.speed_Ms,
    f.isAbsEnabled, f.isAbsInAction, f.isTcInAction, f.isTcEnabled,
    f.isInPit, f.isEngineLimiterOn, l.accG_vertical, l.accG_horizontal,
    l.accG_frontal, l.lapTime, l.lastLap, l.bestLap, l.lapCount, d.gas,
    d.brake, d.clutch, d.engineRPM, d.steer, d.gear, d.cgHeight,
    qa.wheelAngularSpeed, qa.slipAngle, qa.slipAngle_ContactPatch,
    qa.slipRatio, qa.tyreSlip, qa.ndSlip, qa.load, qb.Dy, qb.Mz,
    qb.tyreDirtyLevel, qb.camberRAD, qb.tyreRadius, qb.tyreLoadedRadius,
    qb.suspensionHeight, t.carPositionNormalized, t.carSlope,
    t.carCoordinates⟩, r)

def parseRTCarInfo (msg : List Nat) : Option RTCarInfo :=
  (rtCarInfoReader ⟨msg, 0⟩).map (fun p => p.1)

/-!
The `ACClient` session (an `ACClient` instance together with the state its
base class `UDPGameClient` keeps).  `udpClientOpen` is whether
`this.udpClient` holds a live socket (`undefined` and `null` both map to
`false`, matching the loose `!= undefined` guards of the source);
`reconnectTimerOn` is whether the 2000ms watchdog interval is registered;
`lastMessageTimestamp` is `undefined` (`none`) until the first datagram;
`handshakeStage` is the `ACClient.handshakeStage` counter.  Each operation
returns the new session state together with the list of datagrams it sends.
-/

namespace ACClient

structure State where
  udpClientOpen : Bool
  reconnectTimerOn : Bool
  lastMessageTimestamp : Option Nat
  handshakeStage : Nat
deriving DecidableEq

/-- `UDPGameClient.disconnect` (lines 113-120): returns immediately when no
socket exists, otherwise stops the watchdog and closes the socket. -/
def superDisconnect (s : State) : State :=
  if s.udpClientOpen = false then s
  else { s with reconnectTimerOn := false, udpClientOpen := false }

/-- `ACClient.disconnect` (lines 178-183): best-effort dismiss datagram
(`sendUDPMessage` is a no-op when no socket exists), base-class teardown,
handshake stage reset to 0, `disconnected` event. -/
def disconnect (s : State) : State × List (List Nat) :=
  let out := if s.udpClientOpen = true
    then [handshakeRequest OPERATION_ID_SUBSCRIBE_DISMISS] else []
  let s := superDisconnect s
  ({ s with handshakeStage := 0 }, out)

/-- `UDPGameClient.connect` (lines 99-111) as dispatched on an `ACClient`
instance: `this.disconnect()` resolves to `ACClient.disconnect`; a fresh
socket is created, the message listener installed, and the watchdog
started.  `listenOnPort` is `false` for `ACClient`, so there is no bind. -/
def superConnect (s : State) : State × List (List Nat) :=
  let p := disconnect s
  ({ p.1 with udpClientOpen := true, reconnectTimerOn := true }, p.2)

/-- `ACClient.connect` (lines 173-176): base connect, then the handshake
request datagram (operation id 0), sent only while a socket exists. -/
def connect (s : State) : State × List (List Nat) :=
  let p := superConnect s
  let out2 := if p.1.udpClientOpen = true
    then [handshakeRequest OPERATION_ID_HANDSHAKE] else []
  (p.1, p.2 ++ out2)

/-- `UDPGameClient._reconnectIfNeeded` (lines 145-152): on a watchdog tick
at time `now`, reconnect when no datagram was ever received or when the
last one is more than 2000ms old; otherwise do nothing. -/
def reconnectIfNeeded (now : Nat) (s : State) : State × List (List Nat) :=
  if (match s.lastMessageTimestamp with
      | none => true
      | some t => decide (now - t > 2000)) = true then
    let p := disconnect s
    let q := connect p.1
    (q.1, p.2 ++ q.2)
  else (s, [])

/-- The events `ACClient` emits. -/
inductive ACEvent where
  | connected (response : HandshakeResponse)
  | carInfo (info : RTCarInfo)
deriving DecidableEq

/-- Outcome of running one message handler: either the events it emitted,
or `thrown` when a buffer read threw a range error that nothing catches,
so it escapes the callback (and, under Node's default uncaught-exception
policy, takes down the process). -/
inductive HandlerResult where
  | emitted (events : List ACEvent)
  | thrown
deriving DecidableEq

/-- `ACClient._processUDPMessage` (lines 187-198).  In stage 0 the stage
counter is incremented before the handshake response is parsed, so a parse
error leaves the incremented stage behind; on success the subscribe-update
request is sent and `connected` emitted.  In any later stage the datagram
is parsed as a telemetry record and `carInfo` emitted. -/
def processUDPMessage (s : State) (msg : List Nat) :
    State × List (List Nat) × HandlerResult :=
  if s.handshakeStage = 0 then
    let s := { s with handshakeStage := s.handshakeStage + 1 }
    match parseHandshakeResponse msg with
    | none => (s, [], .thrown)
    | some h =>
      let out := if s.udpClientOpen = true
        then [handshakeRequest OPERATION_ID_SUBSCRIBE_UPDATE] else []
      (s, out, .emitted [.connected h])
  else
    match parseRTCarInfo msg with
    | none => (s, [], .thrown)
    | some c => (s, [], .emitted [.carInfo c])

/-- The socket `message` listener (lines 103-106): run the protocol
handler, then record the arrival time — the timestamp update sits after
the handler call, so a thrown parse error skips it. -/
def onMessage (now : Nat) (s : State) (msg : List Nat) :
    State × List (List Nat) × HandlerResult :=
  let p := processUDPMessage s msg
  match p.2.2 with
  | .thrown => p
  | .emitted _ =>
    ({ p.1 with lastMessageTimestamp := some now }, p.2.1, p.2.2)

end ACClient

/-!
`ACLeds` (lines 411-531), the indicator controller.  Engine RPM values are
exact rationals; the JS double thresholds 0.2, 0.4, 0.65, 0.9 become
1/5, 2/5, 13/20, 9/10.  `flashLEDsTimer = some 100` models a registered
`setInterval` flash timer with its 100ms period; `deviceOpen` is whether
the HID handle exists.  In the source `peakRPM`, `previousLEDMask` and
`LEDsOn` start `undefined`; the model state covers sessions where
`peakRPM` has been set (the `connected` event or a peak hint), and
`LEDsOn = false` plays undefined's falsy role.  Each handler returns the
new state and the list of 7-byte commands written to the device. -/

namespace ACLeds

structure State where
  deviceOpen : Bool
  peakRPM : ℚ
  flashLEDsTimer : Option Nat
  previousLEDMask : Option Nat
  LEDsOn : Bool
  enableRedlineFlashing : Bool
deriving DecidableEq

/-- The peak update of lines 487-489: `if (rpm > this.peakRPM)
this.peakRPM = rpm`. -/
def raisedPeak (peakRPM rpm : ℚ) : ℚ :=
  if rpm > peakRPM then rpm else peakRPM

/-- The mask computation of lines 492-505: start from bit 0 and or in one
more bit per exceeded threshold. -/
def ledMaskFromFrac (rpmFrac : ℚ) : Nat :=
  let LEDMask := 1
  let LEDMask := if rpmFrac > 1/5 then LEDMask ||| 0x2 else LEDMask
  let LEDMask := if rpmFrac > 2/5 then LEDMask ||| 0x4 else LEDMask
  let LEDMask := if rpmFrac > 13/20 then LEDMask ||| 0x8 else LEDMask
  let LEDMask := if rpmFrac > 9/10 then LEDMask ||| 0x10 else LEDMask
  LEDMask

/-- The mask `ACLeds.setLEDsFromRPM` computes for `rpm` in state `s`: the
RPM fraction uses the peak after the raise of lines 487-489. -/
def computedMask (s : State) (rpm : ℚ) : Nat :=
  ledMaskFromFrac (rpm / raisedPeak s.peakRPM rpm)

/-- The 7-byte device command of lines 519/525/527: second byte selects the
LED subsystem, third byte is the bitmask. -/
def ledCommand (mask : Nat) : List Nat :=
  [0xf8, 0x12, mask, 0x00, 0x00, 0x00, 0x01]

/-- `ACLeds.setLEDsFromRPM` (lines 483-521): no-op without a device; raise
the tracked peak when exceeded; compute the mask; suppress the write when
the mask equals the previously written one; at full mask with flashing
enabled start the 100ms flash interval instead of writing; otherwise stop
any flash interval and write the static mask. -/
def setLEDsFromRPM (s : State) (rpm : ℚ) : State × List (List Nat) :=
  if s.deviceOpen = false then (s, [])
  else
    let s := { s with peakRPM := raisedPeak s.peakRPM rpm }
    let LEDMask := ledMaskFromFrac (rpm / s.peakRPM)
    if some LEDMask = s.previousLEDMask then (s, [])
    else
      let s := { s with previousLEDMask := some LEDMask }
      if LEDMask = 0x1f ∧ s.enableRedlineFlashing = true then
        ({ s with flashLEDsTimer := some 100 }, [])
      else
        let s := { s with flashLEDsTimer := none }
        (s, [ledCommand LEDMask])

/-- `ACLeds.flashLEDs` (lines 523-530): write all-on (31) when `LEDsOn`,
all-off (0) otherwise, then toggle `LEDsOn`. -/
def flashLEDs (s : State) : State × List (List Nat) :=
  if s.LEDsOn = true then
    ({ s with LEDsOn := !s.LEDsOn }, [ledCommand 31])
  else
    ({ s with LEDsOn := !s.LEDsOn }, [ledCommand 0])

/-- `ACLeds.connectToWheelIfNeeded` (lines 460-473): open the HID device
lazily.  A failed open calls `exit(1)` and ends the process, so the model
covers the sessions where the wheel is present and the open succeeds. -/
def connectToWheelIfNeeded (s : State) : State :=
  if s.deviceOpen = true then s else { s with deviceOpen := true }

/-- A `carInfo` record as `ACLeds` consumes it: the engine RPM, and for
the Codemasters push protocol a peak-RPM hint (`none` for Assetto Corsa,
whose records carry no such field). -/
structure CarInfo where
  engineRPM : ℚ
  peakRPM : Option ℚ
deriving DecidableEq

/-- `ACLeds.processCarInfo` (lines 475-481): open the wheel if needed,
drive the LEDs from the observed RPM, and only afterwards adopt a supplied
peak-RPM hint verbatim. -/
def processCarInfo (s : State) (carInfo : CarInfo) : State × List (List Nat) :=
  let s := connectToWheelIfNeeded s
  let p := setLEDsFromRPM s carInfo.engineRPM
  match carInfo.peakRPM with
  | some peak => ({ p.1 with peakRPM := peak }, p.2)
  | none => p

/-- `ACLeds.onConnected` (lines 451-458): reset the tracked peak to the
default 7000 baseline, then open the wheel if needed. -/
def onConnected (s : State) : State :=
  connectToWheelIfNeeded { s with peakRPM := 7000 }

/-- Proof-auxiliary view of the mask: the index of the highest exceeded
threshold. -/
def maskLevel (f : ℚ) : Nat :=
  if f > 9/10 then 4
  else if f > 13/20 then 3
  else if f > 2/5 then 2
  else if f > 1/5 then 1
  else 0

/-- Proof-auxiliary view of the mask: the cumulative bar with the given
number of extra segments lit. -/
def maskOfLevel : Nat → Nat
  | 0 => 1
  | 1 => 3
  | 2 => 7
  | 3 => 15
  | _ => 31

end ACLeds

/-!
Model of the transmission-failure path of `ACClient._sendHandshakeRequest`
(lines 202-209).  The error callback passed to `sendUDPMessage` is a plain
`function (error) { if (error) { this.disconnect(); } }`.  A plain function
expression does not capture the enclosing `this`: when the dgram library
invokes the callback, `this` is the library's receiver (the global object
in sloppy mode), not the `ACClient` instance — unlike everywhere else in
the file, which uses the `var _this = this` idiom (lines 102, 141, 423,
512).  The global object has no `disconnect`, so `this.disconnect()`
throws a `TypeError` instead of disconnecting the client. -/

namespace SendFailure

/-- What `this` is bound to inside the error callback. -/
inductive ThisBinding where
  | acClient
  | callerDefault
deriving DecidableEq

/-- The binding the source's plain `function (error)` callback actually
receives when the dgram library invokes it. -/
def sendErrorCallbackBinding : ThisBinding := .callerDefault

/-- Running the error callback of `_sendHandshakeRequest` with a given
`this` binding after a transmission outcome: with the client bound it
disconnects the client on failure; with the caller-default binding
`this.disconnect` is not a function and the callback throws, leaving the
session untouched. -/
def handshakeSendOnError (binding : ThisBinding) (failed : Bool)
    (s : ACClient.State) : Except Unit (ACClient.State × List (List Nat)) :=
  if failed = true then
    match binding with
    | .acClient => .ok (ACClient.disconnect s)
    | .callerDefault => .error ()
  else .ok (s, [])

end SendFailure

/-! ### Lemmas about the mask computation -/

namespace ACLeds

theorem ledMaskFromFrac_eq_sum (f : ℚ) :
    ledMaskFromFrac f =
      1 + (if f > 1/5 then 2 else 0) + (if f > 2/5 then 4 else 0)
        + (if f > 13/20 then 8 else 0) + (if f > 9/10 then 16 else 0) := by
  simp only [ledMaskFromFrac]
  split_ifs <;> decide

theorem ledMaskFromFrac_eq_ofLevel (f : ℚ) :
    ledMaskFromFrac f = maskOfLevel (maskLevel f) := by
  simp only [ledMaskFromFrac, maskLevel]
  split_ifs <;> first | decide | (exfalso; linarith)

theorem maskLevel_mono {f1 f2 : ℚ} (h : f1 ≤ f2) :
    maskLevel f1 ≤ maskLevel f2 := by
  unfold maskLevel
  split_ifs <;> first | omega | linarith

theorem maskLevel_lt (f : ℚ) : maskLevel f < 5 := by
  unfold maskLevel
  split_ifs <;> omega

theorem maskOfLevel_subset : ∀ a : Nat, a < 5 → ∀ b : Nat, b < 5 → a ≤ b →
    maskOfLevel a &&& maskOfLevel b = maskOfLevel a
      ∧ maskOfLevel a ≤ maskOfLevel b := by decide

theorem maskOfLevel_odd : ∀ a : Nat, a < 5 → maskOfLevel a % 2 = 1 := by
  decide

/-! ### Lemmas about setLEDsFromRPM -/

theorem setLEDs_suppressed (s : State) (rpm : ℚ) (hdev : s.deviceOpen = true)
    (hprev : some (computedMask s rpm) = s.previousLEDMask) :
    setLEDsFromRPM s rpm = ({ s with peakRPM := raisedPeak s.peakRPM rpm }, []) := by
  unfold setLEDsFromRPM computedMask at *
  simp [hdev, ← hprev]

theorem setLEDs_flash_branch (s : State) (rpm : ℚ) (hdev : s.deviceOpen = true)
    (hprev : some (computedMask s rpm) ≠ s.previousLEDMask)
    (hm : computedMask s rpm = 31) (hf : s.enableRedlineFlashing = true) :
    setLEDsFromRPM s rpm =
      ({ s with peakRPM := raisedPeak s.peakRPM rpm,
                previousLEDMask := some (computedMask s rpm),
                flashLEDsTimer := some 100 }, []) := by
  unfold setLEDsFromRPM computedMask at *
  simp [hdev, hprev, hf]
  simp [hm]

theorem setLEDs_static_branch (s : State) (rpm : ℚ) (hdev : s.deviceOpen = true)
    (hprev : some (computedMask s rpm) ≠ s.previousLEDMask)
    (hnot : ¬(computedMask s rpm = 31 ∧ s.enableRedlineFlashing = true)) :
    setLEDsFromRPM s rpm =
      ({ s with peakRPM := raisedPeak s.peakRPM rpm,
                previousLEDMask := some (computedMask s rpm),
                flashLEDsTimer := none }, [ledCommand (computedMask s rpm)]) := by
  unfold setLEDsFromRPM computedMask at *
  simp [hdev, hprev]
  intro h
  rcases Bool.eq_false_or_eq_true s.enableRedlineFlashing with hf | hf
  · exact absurd ⟨h, hf⟩ hnot
  · exact hf

theorem setLEDs_previousLEDMask (s : State) (rpm : ℚ)
    (hdev : s.deviceOpen = true) :
    (setLEDsFromRPM s rpm).1.previousLEDMask = some (computedMask s rpm) := by
  by_cases hprev : some (computedMask s rpm) = s.previousLEDMask
  · rw [setLEDs_suppressed s rpm hdev hprev]
    exact hprev.symm
  · by_cases hfl : computedMask s rpm = 31 ∧ s.enableRedlineFlashing = true
    · rw [setLEDs_flash_branch s rpm hdev hprev hfl.1 hfl.2]
    · rw [setLEDs_static_branch s rpm hdev hprev hfl]

theorem setLEDs_peakRPM (s : State) (rpm : ℚ) (hdev : s.deviceOpen = true) :
    (setLEDsFromRPM s rpm).1.peakRPM = raisedPeak s.peakRPM rpm := by
  by_cases hprev : some (computedMask s rpm) = s.previousLEDMask
  · rw [setLEDs_suppressed s rpm hdev hprev]
  · by_cases hfl : computedMask s rpm = 31 ∧ s.enableRedlineFlashing = true
    · rw [setLEDs_flash_branch s rpm hdev hprev hfl.1 hfl.2]
    · rw [setLEDs_static_branch s rpm hdev hprev hfl]

theorem setLEDs_writes_le (s : State) (rpm : ℚ) :
    (setLEDsFromRPM s rpm).2.length ≤ 1 := by
  simp only [setLEDsFromRPM]
  split_ifs <;> simp

theorem computedMask_only_peak (s1 s2 : State) (rpm : ℚ)
    (h : s1.peakRPM = s2.peakRPM) : computedMask s1 rpm = computedMask s2 rpm := by
  unfold computedMask
  rw [h]

theorem setLEDs_deviceOpen (s : State) (rpm : ℚ) :
    (setLEDsFromRPM s rpm).1.deviceOpen = s.deviceOpen := by
  simp only [setLEDsFromRPM]
  split_ifs <;> rfl

theorem le_raisedPeak (peakRPM rpm : ℚ) : peakRPM ≤ raisedPeak peakRPM rpm := by
  unfold raisedPeak
  split_ifs with h
  · exact le_of_lt h
  · exact le_refl peakRPM

theorem raisedPeak_of_le {peakRPM rpm : ℚ} (h : rpm ≤ peakRPM) :
    raisedPeak peakRPM rpm = peakRPM := by
  unfold raisedPeak
  exact if_neg (not_lt.mpr h)

theorem raisedPeak_of_gt {peakRPM rpm : ℚ} (h : rpm > peakRPM) :
    raisedPeak peakRPM rpm = rpm := by
  unfold raisedPeak
  exact if_pos h

/-! ### Lemmas about connectToWheelIfNeeded and processCarInfo -/

theorem connectToWheel_open (s : State) (h : s.deviceOpen = true) :
    connectToWheelIfNeeded s = s := by
  simp [connectToWheelIfNeeded, h]

theorem connectToWheel_device (s : State) :
    (connectToWheelIfNeeded s).deviceOpen = true := by
  unfold connectToWheelIfNeeded
  split_ifs with h
  · exact h
  · rfl

theorem connectToWheel_peak (s : State) :
    (connectToWheelIfNeeded s).peakRPM = s.peakRPM := by
  unfold connectToWheelIfNeeded
  split_ifs <;> rfl

theorem processCarInfo_writes (s : State) (c : CarInfo)
    (hdev : s.deviceOpen = true) :
    (processCarInfo s c).2 = (setLEDsFromRPM s c.engineRPM).2 := by
  cases hc : c.peakRPM <;>
    simp [processCarInfo, connectToWheel_open s hdev, hc]

theorem processCarInfo_previous (s : State) (c : CarInfo)
    (hdev : s.deviceOpen = true) :
    (processCarInfo s c).1.previousLEDMask = some (computedMask s c.engineRPM) := by
  cases hc : c.peakRPM <;>
    simp [processCarInfo, connectToWheel_open s hdev, hc,
      setLEDs_previousLEDMask s c.engineRPM hdev]

theorem processCarInfo_device (s : State) (c : CarInfo) :
    (processCarInfo s c).1.deviceOpen = true := by
  cases hc : c.peakRPM <;>
    simp [processCarInfo, hc, setLEDs_deviceOpen, connectToWheel_device]

theorem processCarInfo_suppressed (s : State) (c : CarInfo)
    (hdev : s.deviceOpen = true)
    (hprev : s.previousLEDMask = some (computedMask s c.engineRPM)) :
    (processCarInfo s c).2 = []
      ∧ (processCarInfo s c).1.previousLEDMask = s.previousLEDMask := by
  have h := setLEDs_suppressed s c.engineRPM hdev hprev.symm
  cases hc : c.peakRPM <;>
    simp [processCarInfo, connectToWheel_open s hdev, hc, h, hprev]

end ACLeds

/-! ### Lemmas about the parsers and the client.

Each reader-chunk lemma characterises the chunk at an arbitrary cursor:
it succeeds, returning the decoded words and the advanced cursor, exactly
when the chunk's last bounds-checked read fits in the buffer, and
otherwise the failing read throws (`none`). -/

theorem wheelQuad_apply (msg : List Nat) (off : Nat) :
    wheelQuad ⟨msg, off⟩
      = if off + 16 ≤ msg.length then
          some (⟨word32 msg off, word32 msg (off + 4), word32 msg (off + 8),
                 word32 msg (off + 12)⟩,
                ⟨msg, off + 16⟩)
        else none := by
  by_cases h1 : off + 4 ≤ msg.length
  case neg =>
    simp [wheelQuad, float, readFloatBitsLE, readUInt32LE, Bind.bind,
      Nat.add_assoc, h1]
    rw [if_neg (by omega)]
  by_cases h2 : off + 8 ≤ msg.length
  case neg =>
    simp [wheelQuad, float, readFloatBitsLE, readUInt32LE, Bind.bind,
      Nat.add_assoc, h1, h2]
    rw [if_neg (by omega)]
  by_cases h3 : off + 12 ≤ msg.length
  case neg =>
    simp [wheelQuad, float, readFloatBitsLE, readUInt32LE, Bind.bind,
      Nat.add_assoc, h1, h2, h3]
    rw [if_neg (by omega)]
  by_cases h4 : off + 16 ≤ msg.length
  case neg =>
    simp [wheelQuad, float, readFloatBitsLE, readUInt32LE, Bind.bind,
      Nat.add_assoc, h1, h2, h3, h4]
  simp [wheelQuad, float, readFloatBitsLE, readUInt32LE, Bind.bind,
    Nat.add_assoc, h1, h2, h3, h4]

theorem rtHeadReader_apply (msg : List Nat) (off : Nat) :
    rtHeadReader ⟨msg, off⟩
      = if off + 20 ≤ msg.length then
          some (⟨word32 msg off, word32 msg (off + 4), word32 msg (off + 8),
                 word32 msg (off + 12), word32 msg (off + 16)⟩,
                ⟨msg, off + 20⟩)
        else none := by
  by_cases h1 : off + 4 ≤ msg.length
  case neg =>
    simp [rtHeadReader, Bind.bind, Nat.add_assoc, uint32, uint8, float, readFloatBitsLE, readUInt32LE, readUInt8, skip, h1]
    rw [if_neg (by omega)]
  by_cases h2 : off + 8 ≤ msg.length
  case neg =>
    simp [rtHeadReader, Bind.bind, Nat.add_assoc, uint32, uint8, float, readFloatBitsLE, readUInt32LE, readUInt8, skip, h1, h2]
    rw [if_neg (by omega)]
  by_cases h3 : off + 12 ≤ msg.length
  case neg =>
    simp [rtHeadReader, Bind.bind, Nat.add_assoc, uint32, uint8, float, readFloatBitsLE, readUInt32LE, readUInt8, skip, h1, h2, h3]
    rw [if_neg (by omega)]
  by_cases h4 : off + 16 ≤ msg.length
  case neg =>
    simp [rtHeadReader, Bind.bind, Nat.add_assoc, uint32, uint8, float, readFloatBitsLE, readUInt32LE, readUInt8, skip, h1, h2, h3, h4]
    rw [if_neg (by omega)]
  by_cases h5 : off + 20 ≤ msg.length
  case neg =>
    simp [rtHeadReader, Bind.bind, Nat.add_assoc, uint32, uint8, float, readFloatBitsLE, readUInt32LE, readUInt8, skip, h1, h2, h3, h4, h5]
  simp [rtHeadReader, Bind.bind, Nat.add_assoc, uint32, uint8, float, readFloatBitsLE, readUInt32LE, readUInt8, skip, h1, h2, h3, h4, h5]

theorem rtFlagsReader_apply (msg : List Nat) (off : Nat) :
    rtFlagsReader ⟨msg, off⟩
      = if off + 6 ≤ msg.length then
          some (⟨msg.getD off 0, msg.getD (off + 1) 0, msg.getD (off + 2) 0,
                 msg.getD (off + 3) 0, msg.getD (off + 4) 0, msg.getD (off + 5) 0⟩,
                ⟨msg, off + 8⟩)
        else none := by
  by_cases h1 : off + 1 ≤ msg.length
  case neg =>
    simp [rtFlagsReader, Bind.bind, Nat.add_assoc, uint32, uint8, float, readFloatBitsLE, readUInt32LE, readUInt8, skip, h1]
    rw [if_neg (by omega)]
  by_cases h2 : off + 2 ≤ msg.length
  case neg =>
    simp [rtFlagsReader, Bind.bind, Nat.add_assoc, uint32, uint8, float, readFloatBitsLE, readUInt32LE, readUInt8, skip, h1, h2]
    rw [if_neg (by omega)]
  by_cases h3 : off + 3 ≤ msg.length
  case neg =>
    simp [rtFlagsReader, Bind.bind, Nat.add_assoc, uint32, uint8, float, readFloatBitsLE, readUInt32LE, readUInt8, skip, h1, h2, h3]
    rw [if_neg (by omega)]
  by_cases h4 : off + 4 ≤ msg.length
  case neg =>
    simp [rtFlagsReader, Bind.bind, Nat.add_assoc, uint32, uint8, float, readFloatBitsLE, readUInt32LE, readUInt8, skip, h1, h2, h3, h4]
    rw [if_neg (by omega)]
  by_cases h5 : off + 5 ≤ msg.length
  case neg =>
    simp [rtFlagsReader, Bind.bind, Nat.add_assoc, uint32, uint8, float, readFloatBitsLE, readUInt32LE, readUInt8, skip, h1, h2, h3, h4, h5]
    rw [if_neg (by omega)]
  by_cases h6 : off + 6 ≤ msg.length
  case neg =>
    simp [rtFlagsReader, Bind.bind, Nat.add_assoc, uint32, uint8, float, readFloatBitsLE, readUInt32LE, readUInt8, skip, h1, h2, h3, h4, h5, h6]
  simp [rtFlagsReader, Bind.bind, Nat.add_assoc, uint32, uint8, float, readFloatBitsLE, readUInt32LE, readUInt8, skip, h1, h2, h3, h4, h5, h6]

set_option maxHeartbeats 1600000 in
theorem rtLapsReader_apply (msg : List Nat) (off : Nat) :
    rtLapsReader ⟨msg, off⟩
      = if off + 28 ≤ msg.length then
          some (⟨word32 msg off, word32 msg (off + 4), word32 msg (off + 8),
                 word32 msg (off + 12), word32 msg (off + 16), word32 msg (off + 20),
                 word32 msg (off + 24)⟩,
                ⟨msg, off + 28⟩)
        else none := by
  by_cases h1 : off + 4 ≤ msg.length
  case neg =>
    simp [rtLapsReader, Bind.bind, Nat.add_assoc, uint32, uint8, float, readFloatBitsLE, readUInt32LE, readUInt8, skip, h1]
    rw [if_neg (by omega)]
  by_cases h2 : off + 8 ≤ msg.length
  case neg =>
    simp [rtLapsReader, Bind.bind, Nat.add_assoc, uint32, uint8, float, readFloatBitsLE, readUInt32LE, readUInt8, skip, h1, h2]
    rw [if_neg (by omega)]
  by_cases h3 : off + 12 ≤ msg.length
  case neg =>
    simp [rtLapsReader, Bind.bind, Nat.add_assoc, uint32, uint8, float, readFloatBitsLE, readUInt32LE, readUInt8, skip, h1, h2, h3]
    rw [if_neg (by omega)]
  by_cases h4 : off + 16 ≤ msg.length
  case neg =>
    simp [rtLapsReader, Bind.bind, Nat.add_assoc, uint32, uint8, float, readFloatBitsLE, readUInt32LE, readUInt8, skip, h1, h2, h3, h4]
    rw [if_neg (by omega)]
  by_cases h5 : off + 20 ≤ msg.length
  case neg =>
    simp [rtLapsReader, Bind.bind, Nat.add_assoc, uint32, uint8, float, readFloatBitsLE, readUInt32LE, readUInt8, skip, h1, h2, h3, h4, h5]
    rw [if_neg (by omega)]
  by_cases h6 : off + 24 ≤ msg.length
  case neg =>
    simp [rtLapsReader, Bind.bind, Nat.add_assoc, uint32, uint8, float, readFloatBitsLE, readUInt32LE, readUInt8, skip, h1, h2, h3, h4, h5, h6]
    rw [if_neg (by omega)]
  by_cases h7 : off + 28 ≤ msg.length
  case neg =>
    simp [rtLapsReader, Bind.bind, Nat.add_assoc, uint32, uint8, float, readFloatBitsLE, readUInt32LE, readUInt8, skip, h1, h2, h3, h4, h5, h6, h7]
  simp [rtLapsReader, Bind.bind, Nat.add_assoc, uint32, uint8, float, readFloatBitsLE, readUInt32LE, readUInt8, skip, h1, h2, h3, h4, h5, h6, h7]

set_option maxHeartbeats 1600000 in
theorem rtDrivelineReader_apply (msg : List Nat) (off : Nat) :
    rtDrivelineReader ⟨msg, off⟩
      = if off + 28 ≤ msg.length then
          some (⟨word32 msg off, word32 msg (off + 4), word32 msg (off + 8),
                 word32 msg (off + 12), word32 msg (off + 16), word32 msg (off + 20),
                 word32 msg (off + 24)⟩,
                ⟨msg, off + 28⟩)
        else none := by
  by_cases h1 : off + 4 ≤ msg.length
  case neg =>
    simp [rtDrivelineReader, Bind.bind, Nat.add_assoc, uint32, uint8, float, readFloatBitsLE, readUInt32LE, readUInt8, skip, h1]
    rw [if_neg (by omega)]
  by_cases h2 : off + 8 ≤ msg.length
  case neg =>
    simp [rtDrivelineReader, Bind.bind, Nat.add_assoc, uint32, uint8, float, readFloatBitsLE, readUInt32LE, readUInt8, skip, h1, h2]
    rw [if_neg (by omega)]
  by_cases h3 : off + 12 ≤ msg.length
  case neg =>
    simp [rtDrivelineReader, Bind.bind, Nat.add_assoc, uint32, uint8, float, readFloatBitsLE, readUInt32LE, readUInt8, skip, h1, h2, h3]
    rw [if_neg (by omega)]
  by_cases h4 : off + 16 ≤ msg.length
  case neg =>
    simp [rtDrivelineReader, Bind.bind, Nat.add_assoc, uint32, uint8, float, readFloatBitsLE, readUInt32LE, readUInt8, skip, h1, h2, h3, h4]
    rw [if_neg (by omega)]
  by_cases h5 : off + 20 ≤ msg.length
  case neg =>
    simp [rtDrivelineReader, Bind.bind, Nat.add_assoc, uint32, uint8, float, readFloatBitsLE, readUInt32LE, readUInt8, skip, h1, h2, h3, h4, h5]
    rw [if_neg (by omega)]
  by_cases h6 : off + 24 ≤ msg.length
  case neg =>
    simp [rtDrivelineReader, Bind.bind, Nat.add_assoc, uint32, uint8, float, readFloatBitsLE, readUInt32LE, readUInt8, skip, h1, h2, h3, h4, h5, h6]
    rw [if_neg (by omega)]
  by_cases h7 : off + 28 ≤ msg.length
  case neg =>
    simp [rtDrivelineReader, Bind.bind, Nat.add_assoc, uint32, uint8, float, readFloatBitsLE, readUInt32LE, readUInt8, skip, h1, h2, h3, h4, h5, h6, h7]
  simp [rtDrivelineReader, Bind.bind, Nat.add_assoc, uint32, uint8, float, readFloatBitsLE, readUInt32LE, readUInt8, skip, h1, h2, h3, h4, h5, h6, h7]

set_option maxHeartbeats 1600000 in
theorem rtQuadsAReader_apply (msg : List Nat) (off : Nat) :
    rtQuadsAReader ⟨msg, off⟩
      = if off + 112 ≤ msg.length then
          some (⟨quadAt msg off, quadAt msg (off + 16), quadAt msg (off + 32),
                 quadAt msg (off + 48), quadAt msg (off + 64), quadAt msg (off + 80),
                 quadAt msg (off + 96)⟩,
                ⟨msg, off + 112⟩)
        else none := by
  by_cases h1 : off + 16 ≤ msg.length
  case neg =>
    simp [rtQuadsAReader, Bind.bind, Nat.add_assoc, wheelQuad_apply, quadAt, h1]
    rw [if_neg (by omega)]
  by_cases h2 : off + 32 ≤ msg.length
  case neg =>
    simp [rtQuadsAReader, Bind.bind, Nat.add_assoc, wheelQuad_apply, quadAt, h1, h2]
    rw [if_neg (by omega)]
  by_cases h3 : off + 48 ≤ msg.length
  case neg =>
    simp [rtQuadsAReader, Bind.bind, Nat.add_assoc, wheelQuad_apply, quadAt, h1, h2, h3]
    rw [if_neg (by omega)]
  by_cases h4 : off + 64 ≤ msg.length
  case neg =>
    simp [rtQuadsAReader, Bind.bind, Nat.add_assoc, wheelQuad_apply, quadAt, h1, h2, h3, h4]
    rw [if_neg (by omega)]
  by_cases h5 : off + 80 ≤ msg.length
  case neg =>
    simp [rtQuadsAReader, Bind.bind, Nat.add_assoc, wheelQuad_apply, quadAt, h1, h2, h3, h4, h5]
    rw [if_neg (by omega)]
  by_cases h6 : off + 96 ≤ msg.length
  case neg =>
    simp [rtQuadsAReader, Bind.bind, Nat.add_assoc, wheelQuad_apply, quadAt, h1, h2, h3, h4, h5, h6]
    rw [if_neg (by omega)]
  by_cases h7 : off + 112 ≤ msg.length
  case neg =>
    simp [rtQuadsAReader, Bind.bind, Nat.add_assoc, wheelQuad_apply, quadAt, h1, h2, h3, h4, h5, h6, h7]
  simp [rtQuadsAReader, Bind.bind, Nat.add_assoc, wheelQuad_apply, quadAt, h1, h2, h3, h4, h5, h6, h7]

set_option maxHeartbeats 1600000 in
theorem rtQuadsBReader_apply (msg : List Nat) (off : Nat) :
    rtQuadsBReader ⟨msg, off⟩
      = if off + 112 ≤ msg.length then
          some (⟨quadAt msg off, quadAt msg (off + 16), quadAt msg (off + 32),
                 quadAt msg (off + 48), quadAt msg (off + 64), quadAt msg (off + 80),
                 quadAt msg (off + 96)⟩,
                ⟨msg, off + 112⟩)
        else none := by
  by_cases h1 : off + 16 ≤ msg.length
  case neg =>
    simp [rtQuadsBReader, Bind.bind, Nat.add_assoc, wheelQuad_apply, quadAt, h1]
    rw [if_neg (by omega)]
  by_cases h2 : off + 32 ≤ msg.length
  case neg =>
    simp [rtQuadsBReader, Bind.bind, Nat.add_assoc, wheelQuad_apply, quadAt, h1, h2]
    rw [if_neg (by omega)]
  by_cases h3 : off + 48 ≤ msg.length
  case neg =>
    simp [rtQuadsBReader, Bind.bind, Nat.add_assoc, wheelQuad_apply, quadAt, h1, h2, h3]
    rw [if_neg (by omega)]
  by_cases h4 : off + 64 ≤ msg.length
  case neg =>
    simp [rtQuadsBReader, Bind.bind, Nat.add_assoc, wheelQuad_apply, quadAt, h1, h2, h3, h4]
    rw [if_neg (by omega)]
  by_cases h5 : off + 80 ≤ msg.length
  case neg =>
    simp [rtQuadsBReader, Bind.bind, Nat.add_assoc, wheelQuad_apply, quadAt, h1, h2, h3, h4, h5]
    rw [if_neg (by omega)]
  by_cases h6 : off + 96 ≤ msg.length
  case neg =>
    simp [rtQuadsBReader, Bind.bind, Nat.add_assoc, wheelQuad_apply, quadAt, h1, h2, h3, h4, h5, h6]
    rw [if_neg (by omega)]
  by_cases h7 : off + 112 ≤ msg.length
  case neg =>
    simp [rtQuadsBReader, Bind.bind, Nat.add_assoc, wheelQuad_apply, quadAt, h1, h2, h3, h4, h5, h6, h7]
  simp [rtQuadsBReader, Bind.bind, Nat.add_assoc, wheelQuad_apply, quadAt, h1, h2, h3, h4, h5, h6, h7]

set_option maxHeartbeats 1600000 in
theorem rtTailReader_apply (msg : List Nat) (off : Nat) :
    rtTailReader ⟨msg, off⟩
      = if off + 20 ≤ msg.length then
          some (⟨word32 msg off, word32 msg (off + 4),
                 ⟨word32 msg (off + 8), word32 msg (off + 12), word32 msg (off + 16)⟩⟩,
                ⟨msg, off + 20⟩)
        else none := by
  by_cases h1 : off + 4 ≤ msg.length
  case neg =>
    simp [rtTailReader, Bind.bind, Nat.add_assoc, uint32, uint8, float, readFloatBitsLE, readUInt32LE, readUInt8, skip, h1]
    rw [if_neg (by omega)]
  by_cases h2 : off + 8 ≤ msg.length
  case neg =>
    simp [rtTailReader, Bind.bind, Nat.add_assoc, uint32, uint8, float, readFloatBitsLE, readUInt32LE, readUInt8, skip, h1, h2]
    rw [if_neg (by omega)]
  by_cases h3 : off + 12 ≤ msg.length
  case neg =>
    simp [rtTailReader, Bind.bind, Nat.add_assoc, uint32, uint8, float, readFloatBitsLE, readUInt32LE, readUInt8, skip, h1, h2, h3]
    rw [if_neg (by omega)]
  by_cases h4 : off + 16 ≤ msg.length
  case neg =>
    simp [rtTailReader, Bind.bind, Nat.add_assoc, uint32, uint8, float, readFloatBitsLE, readUInt32LE, readUInt8, skip, h1, h2, h3, h4]
    rw [if_neg (by omega)]
  by_cases h5 : off + 20 ≤ msg.length
  case neg =>
    simp [rtTailReader, Bind.bind, Nat.add_assoc, uint32, uint8, float, readFloatBitsLE, readUInt32LE, readUInt8, skip, h1, h2, h3, h4, h5]
  simp [rtTailReader, Bind.bind, Nat.add_assoc, uint32, uint8, float, readFloatBitsLE, readUInt32LE, readUInt8, skip, h1, h2, h3, h4, h5]

set_option maxHeartbeats 1600000 in
/-- The telemetry record parse throws on every datagram shorter than its
328-byte fixed layout: the first read reaching past the buffer end fails. -/
theorem parseRTCarInfo_none (msg : List Nat) (h : msg.length < 328) :
    parseRTCarInfo msg = none := by
  by_cases c1 : 20 ≤ msg.length
  case neg =>
    simp [parseRTCarInfo, rtCarInfoReader, Bind.bind, rtHeadReader_apply, rtFlagsReader_apply, rtLapsReader_apply,
    rtDrivelineReader_apply, rtQuadsAReader_apply, rtQuadsBReader_apply,
    rtTailReader_apply,
      c1]
  by_cases c2 : 26 ≤ msg.length
  case neg =>
    simp [parseRTCarInfo, rtCarInfoReader, Bind.bind, rtHeadReader_apply, rtFlagsReader_apply, rtLapsReader_apply,
    rtDrivelineReader_apply, rtQuadsAReader_apply, rtQuadsBReader_apply,
    rtTailReader_apply,
      c1, c2]
  by_cases c3 : 56 ≤ msg.length
  case neg =>
    simp [parseRTCarInfo, rtCarInfoReader, Bind.bind, rtHeadReader_apply, rtFlagsReader_apply, rtLapsReader_apply,
    rtDrivelineReader_apply, rtQuadsAReader_apply, rtQuadsBReader_apply,
    rtTailReader_apply,
      c1, c2, c3]
  by_cases c4 : 84 ≤ msg.length
  case neg =>
    simp [parseRTCarInfo, rtCarInfoReader, Bind.bind, rtHeadReader_apply, rtFlagsReader_apply, rtLapsReader_apply,
    rtDrivelineReader_apply, rtQuadsAReader_apply, rtQuadsBReader_apply,
    rtTailReader_apply,
      c1, c2, c3, c4]
  by_cases c5 : 196 ≤ msg.length
  case neg =>
    simp [parseRTCarInfo, rtCarInfoReader, Bind.bind, rtHeadReader_apply, rtFlagsReader_apply, rtLapsReader_apply,
    rtDrivelineReader_apply, rtQuadsAReader_apply, rtQuadsBReader_apply,
    rtTailReader_apply,
      c1, c2, c3, c4, c5]
  by_cases c6 : 308 ≤ msg.length
  case neg =>
    simp [parseRTCarInfo, rtCarInfoReader, Bind.bind, rtHeadReader_apply, rtFlagsReader_apply, rtLapsReader_apply,
    rtDrivelineReader_apply, rtQuadsAReader_apply, rtQuadsBReader_apply,
    rtTailReader_apply,
      c1, c2, c3, c4, c5, c6]
  have clast : ¬(328 ≤ msg.length) := by omega
  simp [parseRTCarInfo, rtCarInfoReader, Bind.bind, rtHeadReader_apply, rtFlagsReader_apply, rtLapsReader_apply,
    rtDrivelineReader_apply, rtQuadsAReader_apply, rtQuadsBReader_apply,
    rtTailReader_apply,
    c1, c2, c3, c4, c5, c6, clast]

theorem stringUtf16_apply (len : Nat) (b : List Nat) (off : Nat) :
    stringUtf16 len ⟨b, off⟩ =
      some (stripAfterPercent (utf16Units ((b.drop off).take len)),
            ⟨b, off + len⟩) := rfl

/-- The handshake parse throws exactly when the buffer ends before the two
integer fields at offsets 200 and 204: string fields clamp and never
fail. -/
theorem parseHandshakeResponse_none (msg : List Nat) (h : msg.length < 208) :
    parseHandshakeResponse msg = none := by
  by_cases c1 : 204 ≤ msg.length
  case neg =>
    simp [parseHandshakeResponse, handshakeResponseReader, Bind.bind,
      stringUtf16, uint32, readUInt32LE, Nat.add_assoc, c1]
  have c2 : ¬(208 ≤ msg.length) := by omega
  simp [parseHandshakeResponse, handshakeResponseReader, Bind.bind,
    stringUtf16, uint32, readUInt32LE, Nat.add_assoc, c1, c2]

/-- A stage-0 datagram of at least 208 bytes parses successfully even when
it is shorter than the full 408-byte handshake layout, because the four
100-byte string reads clamp at the buffer end. -/
theorem parseHandshakeResponse_some (msg : List Nat) (h : 208 ≤ msg.length) :
    parseHandshakeResponse msg = some (decodedHandshake msg) := by
  have c1 : 204 ≤ msg.length := by omega
  simp [parseHandshakeResponse, handshakeResponseReader, Bind.bind,
    stringUtf16, uint32, readUInt32LE, Nat.add_assoc, decodedHandshake,
    stringField, c1, h]

theorem stripAfterPercent_of_no_terminator (u : List Nat)
    (h : u.all (fun c => !isLineTerminator c) = true) :
    stripAfterPercent u = u.takeWhile (fun c => c != 37) := by
  induction u with
  | nil => rfl
  | cons c rest ih =>
    simp only [List.all_cons, Bool.and_eq_true] at h
    by_cases hc : c = 37
    · subst hc
      simp [stripAfterPercent, List.takeWhile, h.2]
    · have hc2 : (c == 37) = false := by simp [hc]
      simp [stripAfterPercent, List.takeWhile, bne, hc2, ih h.2]

theorem lor_one_two : (1 ||| 2 : Nat) = 3 := by decide

theorem lor_three_four : (3 ||| 4 : Nat) = 7 := by decide

theorem lor_seven_eight : (7 ||| 8 : Nat) = 15 := by decide

theorem lor_fifteen_sixteen : (15 ||| 16 : Nat) = 31 := by decide

/-! ### Claim theorems -/

/-- Claim C1: for every rpm and tracked peakRPM (positive, with the device
open), `setLEDsFromRPM` computes the mask with bit 0 always set, bit 1 iff
the RPM fraction exceeds 0.20, bit 2 iff 0.40, bit 3 iff 0.65, bit 4 iff
0.90; in particular the mask is `0b00001` at rpm 0, `0b00111` at half the
peak, `0b11111` at 0.95 of the peak, and for rpm above the peak the
tracked peak is raised to rpm and the mask is `0b11111`. -/
theorem claim_C1_mask_computation (s : ACLeds.State) (rpm : ℚ)
    (hdev : s.deviceOpen = true) (hpk : 0 < s.peakRPM) :
    (ACLeds.setLEDsFromRPM s rpm).1.previousLEDMask
        = some (1
          + (if rpm / ACLeds.raisedPeak s.peakRPM rpm > 1/5 then 2 else 0)
          + (if rpm / ACLeds.raisedPeak s.peakRPM rpm > 2/5 then 4 else 0)
          + (if rpm / ACLeds.raisedPeak s.peakRPM rpm > 13/20 then 8 else 0)
          + (if rpm / ACLeds.raisedPeak s.peakRPM rpm > 9/10 then 16 else 0))
    ∧ (rpm = 0 → (ACLeds.setLEDsFromRPM s rpm).1.previousLEDMask = some 1)
    ∧ (rpm = s.peakRPM * (1/2) →
        (ACLeds.setLEDsFromRPM s rpm).1.previousLEDMask = some 7)
    ∧ (rpm = s.peakRPM * (19/20) →
        (ACLeds.setLEDsFromRPM s rpm).1.previousLEDMask = some 31)
    ∧ (rpm > s.peakRPM →
        (ACLeds.setLEDsFromRPM s rpm).1.peakRPM = rpm
        ∧ (ACLeds.setLEDsFromRPM s rpm).1.previousLEDMask = some 31) := by
  have hprev := ACLeds.setLEDs_previousLEDMask s rpm hdev
  refine ⟨?_, ?_, ?_, ?_, ?_⟩
  · rw [hprev]
    unfold ACLeds.computedMask
    rw [ACLeds.ledMaskFromFrac_eq_sum]
  · intro h0
    subst h0
    rw [hprev]
    unfold ACLeds.computedMask
    rw [ACLeds.raisedPeak_of_le (le_of_lt hpk), zero_div]
    norm_num [ACLeds.ledMaskFromFrac, lor_one_two, lor_three_four, lor_seven_eight, lor_fifteen_sixteen]
  · intro hh
    subst hh
    rw [hprev]
    unfold ACLeds.computedMask
    rw [ACLeds.raisedPeak_of_le (by linarith), mul_comm, mul_div_assoc,
      div_self (ne_of_gt hpk), mul_one]
    norm_num [ACLeds.ledMaskFromFrac, lor_one_two, lor_three_four, lor_seven_eight, lor_fifteen_sixteen]
  · intro hh
    subst hh
    rw [hprev]
    unfold ACLeds.computedMask
    rw [ACLeds.raisedPeak_of_le (by linarith), mul_comm, mul_div_assoc,
      div_self (ne_of_gt hpk), mul_one]
    norm_num [ACLeds.ledMaskFromFrac, lor_one_two, lor_three_four, lor_seven_eight, lor_fifteen_sixteen]
  · intro hgt
    constructor
    · rw [ACLeds.setLEDs_peakRPM s rpm hdev, ACLeds.raisedPeak_of_gt hgt]
    · rw [hprev]
      unfold ACLeds.computedMask
      rw [ACLeds.raisedPeak_of_gt hgt, div_self (ne_of_gt (lt_trans hpk hgt))]
      norm_num [ACLeds.ledMaskFromFrac, lor_one_two, lor_three_four, lor_seven_eight, lor_fifteen_sixteen]

/-- Witness for C1 at a concrete input: half the 7000 peak lights the
three lowest segments. -/
theorem claim_C1_witness :
    (ACLeds.setLEDsFromRPM ⟨true, 7000, none, none, false, true⟩
        3500).1.previousLEDMask = some 7 :=
  (claim_C1_mask_computation ⟨true, 7000, none, none, false, true⟩ 3500 rfl
    (show (0:ℚ) < 7000 by norm_num)).2.2.1
    (show (3500:ℚ) = 7000 * (1/2) by norm_num)

/-- Claim C3 counterexample: a carInfo record with a lower peak-RPM hint
makes the tracked peakRPM decrease across a record update with no
connection reset involved, so peakRPM is not monotone within a session. -/
theorem claim_C3_counterexample :
    (ACLeds.processCarInfo ⟨true, 7000, none, some 1, false, true⟩
        ⟨0, some 5000⟩).1.peakRPM
      < (⟨true, 7000, none, some 1, false, true⟩ : ACLeds.State).peakRPM := by
  norm_num [ACLeds.processCarInfo, ACLeds.connectToWheelIfNeeded,
    ACLeds.setLEDsFromRPM, ACLeds.computedMask, ACLeds.raisedPeak,
    ACLeds.ledMaskFromFrac, lor_one_two, lor_three_four, lor_seven_eight, lor_fifteen_sixteen]

/-- Claim C3 (amended): across carInfo updates without a peak-RPM hint the
tracked peakRPM never decreases; a supplied hint is adopted verbatim (and
may lower the tracked peak); the connected event resets it to 7000. -/
theorem claim_C3_amended :
    (∀ (s : ACLeds.State) (c : ACLeds.CarInfo), c.peakRPM = none →
        s.peakRPM ≤ (ACLeds.processCarInfo s c).1.peakRPM)
    ∧ (∀ (s : ACLeds.State) (c : ACLeds.CarInfo) (p : ℚ), c.peakRPM = some p →
        (ACLeds.processCarInfo s c).1.peakRPM = p)
    ∧ (∀ s : ACLeds.State, (ACLeds.onConnected s).peakRPM = 7000) := by
  refine ⟨?_, ?_, ?_⟩
  · intro s c hna
    have heq : (ACLeds.processCarInfo s c).1.peakRPM
        = ACLeds.raisedPeak (ACLeds.connectToWheelIfNeeded s).peakRPM
            c.engineRPM := by
      simp [ACLeds.processCarInfo, hna,
        ACLeds.setLEDs_peakRPM (ACLeds.connectToWheelIfNeeded s) c.engineRPM
          (ACLeds.connectToWheel_device s)]
    rw [heq, ACLeds.connectToWheel_peak]
    exact ACLeds.le_raisedPeak s.peakRPM c.engineRPM
  · intro s c p hp
    simp [ACLeds.processCarInfo, hp]
  · intro s
    simp [ACLeds.onConnected, ACLeds.connectToWheel_peak]

/-- Witness for C3 (amended) at a concrete input: a hintless record with a
higher RPM does not lower the 7000 peak. -/
theorem claim_C3_witness :
    (⟨true, 7000, none, none, false, true⟩ : ACLeds.State).peakRPM
      ≤ (ACLeds.processCarInfo ⟨true, 7000, none, none, false, true⟩
          ⟨8000, none⟩).1.peakRPM :=
  claim_C3_amended.1 ⟨true, 7000, none, none, false, true⟩ ⟨8000, none⟩ rfl

/-- Claim C5: when the computed mask reaches all five bits with flashing
enabled, no static write is issued and the 100ms toggle interval is
registered; an event whose mask leaves the maximum (or with flashing
disabled) cancels the interval and issues a single static mask write; each
toggle tick writes the all-on command when `LEDsOn` and the all-off
command otherwise, flipping `LEDsOn` so that consecutive ticks alternate
between bitmask 31 and bitmask 0. -/
theorem claim_C5_redline_flashing :
    (∀ (s : ACLeds.State) (rpm : ℚ), s.deviceOpen = true →
        s.enableRedlineFlashing = true → ACLeds.computedMask s rpm = 31 →
        some (ACLeds.computedMask s rpm) ≠ s.previousLEDMask →
        (ACLeds.setLEDsFromRPM s rpm).1.flashLEDsTimer = some 100
          ∧ (ACLeds.setLEDsFromRPM s rpm).2 = [])
    ∧ (∀ (s : ACLeds.State) (rpm : ℚ), s.deviceOpen = true →
        s.previousLEDMask = some 31 → ACLeds.computedMask s rpm < 31 →
        (ACLeds.setLEDsFromRPM s rpm).1.flashLEDsTimer = none
          ∧ (ACLeds.setLEDsFromRPM s rpm).2
              = [ACLeds.ledCommand (ACLeds.computedMask s rpm)])
    ∧ (∀ (s : ACLeds.State) (rpm : ℚ), s.deviceOpen = true →
        s.enableRedlineFlashing = false →
        some (ACLeds.computedMask s rpm) ≠ s.previousLEDMask →
        (ACLeds.setLEDsFromRPM s rpm).1.flashLEDsTimer = none
          ∧ (ACLeds.setLEDsFromRPM s rpm).2
              = [ACLeds.ledCommand (ACLeds.computedMask s rpm)])
    ∧ (∀ s : ACLeds.State, ACLeds.flashLEDs s =
        ({ s with LEDsOn := !s.LEDsOn },
         [ACLeds.ledCommand (if s.LEDsOn = true then 31 else 0)])) := by
  refine ⟨?_, ?_, ?_, ?_⟩
  · intro s rpm hdev hf hm hprev
    rw [ACLeds.setLEDs_flash_branch s rpm hdev hprev hm hf]
    exact ⟨rfl, rfl⟩
  · intro s rpm hdev hprev31 hlt
    have hne : some (ACLeds.computedMask s rpm) ≠ s.previousLEDMask := by
      rw [hprev31]
      intro heq
      exact absurd (Option.some.inj heq) (ne_of_lt hlt)
    have hnot : ¬(ACLeds.computedMask s rpm = 31
        ∧ s.enableRedlineFlashing = true) :=
      fun hand => absurd hand.1 (ne_of_lt hlt)
    rw [ACLeds.setLEDs_static_branch s rpm hdev hne hnot]
    exact ⟨rfl, rfl⟩
  · intro s rpm hdev hoff hprev
    have hnot : ¬(ACLeds.computedMask s rpm = 31
        ∧ s.enableRedlineFlashing = true) := by
      intro hand
      rw [hoff] at hand
      exact Bool.false_ne_true hand.2
    rw [ACLeds.setLEDs_static_branch s rpm hdev hprev hnot]
    exact ⟨rfl, rfl⟩
  · intro s
    simp only [ACLeds.flashLEDs]
    split_ifs <;> rfl

/-- Witness for C5 at a concrete input: hitting the 7000 peak exactly
registers the 100ms toggle interval and writes nothing. -/
theorem claim_C5_witness :
    (ACLeds.setLEDsFromRPM ⟨true, 7000, none, none, false, true⟩
        7000).1.flashLEDsTimer = some 100
    ∧ (ACLeds.setLEDsFromRPM ⟨true, 7000, none, none, false, true⟩ 7000).2
        = [] :=
  claim_C5_redline_flashing.1 ⟨true, 7000, none, none, false, true⟩ 7000
    rfl rfl
    (by norm_num [ACLeds.computedMask, ACLeds.raisedPeak,
      ACLeds.ledMaskFromFrac, lor_one_two, lor_three_four, lor_seven_eight, lor_fifteen_sixteen])
    (by simp)

/-- Claim C6 counterexample: two consecutive carInfo events with identical
resulting mask after which zero device writes were issued — the computed
mask already equals the previously written one, so the first event writes
nothing, refuting the claimed "exactly one device write by the first
event". -/
theorem claim_C6_counterexample :
    ACLeds.computedMask ⟨true, 7000, none, some 1, false, true⟩ 0
      = ACLeds.computedMask
          (ACLeds.processCarInfo ⟨true, 7000, none, some 1, false, true⟩
            ⟨0, none⟩).1 0
    ∧ (ACLeds.processCarInfo ⟨true, 7000, none, some 1, false, true⟩
        ⟨0, none⟩).2 = [] := by
  norm_num [ACLeds.processCarInfo, ACLeds.connectToWheelIfNeeded,
    ACLeds.setLEDsFromRPM, ACLeds.computedMask, ACLeds.raisedPeak,
    ACLeds.ledMaskFromFrac, lor_one_two, lor_three_four, lor_seven_eight, lor_fifteen_sixteen]

/-- Claim C6 (amended): for consecutive carInfo events with identical
computed mask, the second event issues no device command and leaves
`previousLEDMask` unchanged; the first event issues at most one write —
exactly one when its mask differs from the previously written one and
does not enter the redline-flash branch, and zero otherwise (mask equal
to the previously written one, or full mask with flashing enabled). -/
theorem claim_C6_amended : ∀ (s : ACLeds.State) (c1 c2 : ACLeds.CarInfo),
    s.deviceOpen = true →
    ACLeds.computedMask s c1.engineRPM
      = ACLeds.computedMask (ACLeds.processCarInfo s c1).1 c2.engineRPM →
    (ACLeds.processCarInfo (ACLeds.processCarInfo s c1).1 c2).2 = []
    ∧ (ACLeds.processCarInfo (ACLeds.processCarInfo s c1).1 c2).1.previousLEDMask
        = (ACLeds.processCarInfo s c1).1.previousLEDMask
    ∧ (ACLeds.processCarInfo s c1).2.length ≤ 1
    ∧ ((some (ACLeds.computedMask s c1.engineRPM) ≠ s.previousLEDMask
        ∧ ¬(ACLeds.computedMask s c1.engineRPM = 31
            ∧ s.enableRedlineFlashing = true)) →
       (ACLeds.processCarInfo s c1).2.length = 1)
    ∧ (some (ACLeds.computedMask s c1.engineRPM) = s.previousLEDMask →
       (ACLeds.processCarInfo s c1).2 = [])
    ∧ ((ACLeds.computedMask s c1.engineRPM = 31
        ∧ s.enableRedlineFlashing = true) →
       (ACLeds.processCarInfo s c1).2 = []) := by
  intro s c1 c2 hdev hmask
  have hdev1 := ACLeds.processCarInfo_device s c1
  have hprev1 := ACLeds.processCarInfo_previous s c1 hdev
  have hsup := ACLeds.processCarInfo_suppressed (ACLeds.processCarInfo s c1).1
    c2 hdev1 (by rw [hprev1, hmask])
  refine ⟨hsup.1, hsup.2, ?_, ?_, ?_, ?_⟩
  · rw [ACLeds.processCarInfo_writes s c1 hdev]
    exact ACLeds.setLEDs_writes_le s c1.engineRPM
  · intro hand
    rw [ACLeds.processCarInfo_writes s c1 hdev,
      ACLeds.setLEDs_static_branch s c1.engineRPM hdev hand.1 hand.2]
    rfl
  · intro hpe
    rw [ACLeds.processCarInfo_writes s c1 hdev,
      ACLeds.setLEDs_suppressed s c1.engineRPM hdev hpe]
  · intro hand
    by_cases hpe : some (ACLeds.computedMask s c1.engineRPM)
        = s.previousLEDMask
    · rw [ACLeds.processCarInfo_writes s c1 hdev,
        ACLeds.setLEDs_suppressed s c1.engineRPM hdev hpe]
    · rw [ACLeds.processCarInfo_writes s c1 hdev,
        ACLeds.setLEDs_flash_branch s c1.engineRPM hdev hpe hand.1 hand.2]

/-- Witness for C6 (amended) at a concrete input: two half-peak events in
a row — the second writes nothing and keeps the previous mask. -/
theorem claim_C6_witness :
    (ACLeds.processCarInfo
        (ACLeds.processCarInfo ⟨true, 7000, none, none, false, true⟩
          ⟨3500, none⟩).1 ⟨3500, none⟩).2 = []
    ∧ (ACLeds.processCarInfo
        (ACLeds.processCarInfo ⟨true, 7000, none, none, false, true⟩
          ⟨3500, none⟩).1 ⟨3500, none⟩).1.previousLEDMask
      = (ACLeds.processCarInfo ⟨true, 7000, none, none, false, true⟩
          ⟨3500, none⟩).1.previousLEDMask
    ∧ (ACLeds.processCarInfo ⟨true, 7000, none, none, false, true⟩
        ⟨3500, none⟩).2.length ≤ 1
    ∧ ((some (ACLeds.computedMask ⟨true, 7000, none, none, false, true⟩ 3500)
          ≠ (⟨true, 7000, none, none, false, true⟩ : ACLeds.State).previousLEDMask
        ∧ ¬(ACLeds.computedMask ⟨true, 7000, none, none, false, true⟩ 3500 = 31
            ∧ (⟨true, 7000, none, none, false, true⟩
                : ACLeds.State).enableRedlineFlashing = true)) →
       (ACLeds.processCarInfo ⟨true, 7000, none, none, false, true⟩
          ⟨3500, none⟩).2.length = 1)
    ∧ (some (ACLeds.computedMask ⟨true, 7000, none, none, false, true⟩ 3500)
          = (⟨true, 7000, none, none, false, true⟩ : ACLeds.State).previousLEDMask →
       (ACLeds.processCarInfo ⟨true, 7000, none, none, false, true⟩
          ⟨3500, none⟩).2 = [])
    ∧ ((ACLeds.computedMask ⟨true, 7000, none, none, false, true⟩ 3500 = 31
        ∧ (⟨true, 7000, none, none, false, true⟩
            : ACLeds.State).enableRedlineFlashing = true) →
       (ACLeds.processCarInfo ⟨true, 7000, none, none, false, true⟩
          ⟨3500, none⟩).2 = []) :=
  claim_C6_amended ⟨true, 7000, none, none, false, true⟩ ⟨3500, none⟩
    ⟨3500, none⟩ rfl
    (by
      refine ACLeds.computedMask_only_peak _ _ 3500 ?_
      have heq : (ACLeds.processCarInfo ⟨true, 7000, none, none, false, true⟩
          ⟨3500, none⟩).1.peakRPM
          = ACLeds.raisedPeak
              (ACLeds.connectToWheelIfNeeded
                ⟨true, 7000, none, none, false, true⟩).peakRPM 3500 := by
        simp [ACLeds.processCarInfo,
          ACLeds.setLEDs_peakRPM _ _ (ACLeds.connectToWheel_device _)]
      rw [heq, ACLeds.connectToWheel_peak]
      norm_num [ACLeds.raisedPeak])

/-- Claim C7: for a fixed positive peak and RPM values
`0 ≤ r1 ≤ r2 ≤ peak`, the computed mask at `r1` is a bit-subset of (and
numerically at most) the mask at `r2`, and both masks have bit 0 set. -/
theorem claim_C7_mask_monotone (s : ACLeds.State) (r1 r2 : ℚ)
    (hpk : 0 < s.peakRPM) (h12 : r1 ≤ r2) (h2 : r2 ≤ s.peakRPM) :
    (ACLeds.computedMask s r1 &&& ACLeds.computedMask s r2
        = ACLeds.computedMask s r1
      ∧ ACLeds.computedMask s r1 ≤ ACLeds.computedMask s r2)
    ∧ ACLeds.computedMask s r1 % 2 = 1
    ∧ ACLeds.computedMask s r2 % 2 = 1 := by
  have e1 : ACLeds.computedMask s r1
      = ACLeds.maskOfLevel (ACLeds.maskLevel (r1 / s.peakRPM)) := by
    unfold ACLeds.computedMask
    rw [ACLeds.raisedPeak_of_le (le_trans h12 h2),
      ACLeds.ledMaskFromFrac_eq_ofLevel]
  have e2 : ACLeds.computedMask s r2
      = ACLeds.maskOfLevel (ACLeds.maskLevel (r2 / s.peakRPM)) := by
    unfold ACLeds.computedMask
    rw [ACLeds.raisedPeak_of_le h2, ACLeds.ledMaskFromFrac_eq_ofLevel]
  have hfr : r1 / s.peakRPM ≤ r2 / s.peakRPM := by gcongr
  have hsub := ACLeds.maskOfLevel_subset _ (ACLeds.maskLevel_lt (r1 / s.peakRPM))
    _ (ACLeds.maskLevel_lt (r2 / s.peakRPM)) (ACLeds.maskLevel_mono hfr)
  refine ⟨?_, ?_, ?_⟩
  · rw [e1, e2]
    exact hsub
  · rw [e1]
    exact ACLeds.maskOfLevel_odd _ (ACLeds.maskLevel_lt (r1 / s.peakRPM))
  · rw [e2]
    exact ACLeds.maskOfLevel_odd _ (ACLeds.maskLevel_lt (r2 / s.peakRPM))

/-- Witness for C7 at concrete inputs 1000 ≤ 2000 below a 7000 peak. -/
theorem claim_C7_witness :
    (ACLeds.computedMask ⟨true, 7000, none, none, false, true⟩ 1000
        &&& ACLeds.computedMask ⟨true, 7000, none, none, false, true⟩ 2000
      = ACLeds.computedMask ⟨true, 7000, none, none, false, true⟩ 1000
      ∧ ACLeds.computedMask ⟨true, 7000, none, none, false, true⟩ 1000
        ≤ ACLeds.computedMask ⟨true, 7000, none, none, false, true⟩ 2000)
    ∧ ACLeds.computedMask ⟨true, 7000, none, none, false, true⟩ 1000 % 2 = 1
    ∧ ACLeds.computedMask ⟨true, 7000, none, none, false, true⟩ 2000 % 2 = 1 :=
  claim_C7_mask_monotone ⟨true, 7000, none, none, false, true⟩ 1000 2000
    (show (0:ℚ) < 7000 by norm_num) (by norm_num)
    (show (2000:ℚ) ≤ 7000 by norm_num)

/-- Claim C10: for a carInfo record with a peak-RPM hint, the device
writes, the recorded mask and the flash-timer outcome are those of the
same record without the hint — the mask is computed against the peak held
before the hint is adopted — while the resulting tracked peak is exactly
the hint, so the hint only affects later events. -/
theorem claim_C10_hint_adopted_after_mask :
    ∀ (s : ACLeds.State) (rpm hint : ℚ),
    (ACLeds.processCarInfo s ⟨rpm, some hint⟩).2
        = (ACLeds.processCarInfo s ⟨rpm, none⟩).2
    ∧ (ACLeds.processCarInfo s ⟨rpm, some hint⟩).1.previousLEDMask
        = (ACLeds.processCarInfo s ⟨rpm, none⟩).1.previousLEDMask
    ∧ (ACLeds.processCarInfo s ⟨rpm, some hint⟩).1.flashLEDsTimer
        = (ACLeds.processCarInfo s ⟨rpm, none⟩).1.flashLEDsTimer
    ∧ (ACLeds.processCarInfo s ⟨rpm, some hint⟩).1.peakRPM = hint := by
  intro s rpm hint
  simp [ACLeds.processCarInfo]

/-- Claim C2 counterexample: the empty datagram (shorter than any fixed
layout) received at handshake stage 0 raises an uncaught range error from
the buffer read AND leaves the stage incremented to 1 — the claim's
"no process-level error, connection state unchanged" fails on both
counts. -/
theorem claim_C2_counterexample :
    ACClient.processUDPMessage ⟨true, true, none, 0⟩ []
      = (⟨true, true, none, 1⟩, [], ACClient.HandlerResult.thrown) := by
  decide

/-- Claim C2 (amended): in the subscribed stage, every datagram shorter
than the 328-byte telemetry layout makes a buffer read throw; the error
escapes the message handler uncaught, nothing is sent or emitted, and
neither the session state nor the last-message timestamp changes.  At
handshake stage 0 the stage counter moves to 1 before the parse in every
case: a datagram shorter than 208 bytes (the end of the two integer
fields) throws with nothing sent, while one of 208 bytes or more — even
when shorter than the full 408-byte handshake layout — parses
successfully with clamped string fields, sends the subscribe request and
emits `connected`.  In no case is a short datagram discarded with the
connection state left unchanged. -/
theorem claim_C2_amended (s : ACClient.State) (msg : List Nat) :
    (s.handshakeStage ≠ 0 → msg.length < 328 →
      ACClient.processUDPMessage s msg = (s, [], .thrown)
      ∧ ∀ now : Nat, ACClient.onMessage now s msg = (s, [], .thrown))
    ∧ (s.handshakeStage = 0 → msg.length < 208 →
      ACClient.processUDPMessage s msg
          = ({ s with handshakeStage := 1 }, [], .thrown)
      ∧ ∀ now : Nat, ACClient.onMessage now s msg
          = ({ s with handshakeStage := 1 }, [], .thrown))
    ∧ (s.handshakeStage = 0 → 208 ≤ msg.length →
      ACClient.processUDPMessage s msg
        = ({ s with handshakeStage := 1 },
           (if s.udpClientOpen = true
             then [handshakeRequest OPERATION_ID_SUBSCRIBE_UPDATE] else []),
           .emitted [.connected (decodedHandshake msg)])) := by
  refine ⟨?_, ?_, ?_⟩
  · intro hs hlen
    have hp := parseRTCarInfo_none msg hlen
    refine ⟨?_, ?_⟩
    · simp [ACClient.processUDPMessage, hs, hp]
    · intro now
      simp [ACClient.onMessage, ACClient.processUDPMessage, hs, hp]
  · intro hs hlen
    have hp := parseHandshakeResponse_none msg hlen
    refine ⟨?_, ?_⟩
    · simp [ACClient.processUDPMessage, hs, hp]
    · intro now
      simp [ACClient.onMessage, ACClient.processUDPMessage, hs, hp]
  · intro hs hlen
    have hp := parseHandshakeResponse_some msg hlen
    simp [ACClient.processUDPMessage, hs, hp]

/-- Witness for C2 (amended) at a concrete input: a 327-byte datagram in
the subscribed stage — one byte short of the layout — throws and changes
nothing. -/
theorem claim_C2_witness :
    ACClient.processUDPMessage ⟨true, true, none, 3⟩ (List.replicate 327 0)
        = (⟨true, true, none, 3⟩, [], ACClient.HandlerResult.thrown)
    ∧ ∀ now : Nat, ACClient.onMessage now ⟨true, true, none, 3⟩
        (List.replicate 327 0)
        = (⟨true, true, none, 3⟩, [], ACClient.HandlerResult.thrown) :=
  (claim_C2_amended ⟨true, true, none, 3⟩ (List.replicate 327 0)).1
    (by decide) (by simp only [List.length_replicate]; omega)

/-- Claim C4 counterexample: a tick at exactly 2000ms of silence — which
the claim's "at least 2000ms" covers — leaves the session untouched (stage
still 1, nothing sent), because the source tests `> 2000` strictly. -/
theorem claim_C4_counterexample :
    (2000:Nat) - 0 ≥ 2000
    ∧ ACClient.reconnectIfNeeded 2000 ⟨true, true, some 0, 1⟩
        = (⟨true, true, some 0, 1⟩, []) := by
  decide

/-- Claim C4 (amended): a watchdog tick after strictly more than 2000ms of
silence (or when no datagram ever arrived) performs a full disconnect plus
connect — ending connected with the watchdog running, handshake stage
reset to 0, the best-effort dismiss datagram sent when a socket was open,
and the handshake request re-sent; a tick within the 2000ms window leaves
the session unchanged. -/
theorem claim_C4_amended :
    (∀ (now : Nat) (s : ACClient.State) (t : Nat),
        s.lastMessageTimestamp = some t → now - t > 2000 →
        ACClient.reconnectIfNeeded now s
          = (⟨true, true, s.lastMessageTimestamp, 0⟩,
             (if s.udpClientOpen = true
               then [handshakeRequest OPERATION_ID_SUBSCRIBE_DISMISS] else [])
               ++ [handshakeRequest OPERATION_ID_HANDSHAKE]))
    ∧ (∀ (now : Nat) (s : ACClient.State),
        s.lastMessageTimestamp = none →
        ACClient.reconnectIfNeeded now s
          = (⟨true, true, none, 0⟩,
             (if s.udpClientOpen = true
               then [handshakeRequest OPERATION_ID_SUBSCRIBE_DISMISS] else [])
               ++ [handshakeRequest OPERATION_ID_HANDSHAKE]))
    ∧ (∀ (now : Nat) (s : ACClient.State) (t : Nat),
        s.lastMessageTimestamp = some t → now - t ≤ 2000 →
        ACClient.reconnectIfNeeded now s = (s, [])) := by
  refine ⟨?_, ?_, ?_⟩
  · intro now s t ht hgt
    cases hopen : s.udpClientOpen <;>
      simp [ACClient.reconnectIfNeeded, ACClient.disconnect,
        ACClient.connect, ACClient.superConnect, ACClient.superDisconnect,
        ht, hgt, hopen]
  · intro now s ht
    cases hopen : s.udpClientOpen <;>
      simp [ACClient.reconnectIfNeeded, ACClient.disconnect,
        ACClient.connect, ACClient.superConnect, ACClient.superDisconnect,
        ht, hopen]
  · intro now s t ht hle
    have hno : ¬(now - t > 2000) := by omega
    simp [ACClient.reconnectIfNeeded, ht, hno]

/-- Witness for C4 (amended) at a concrete input: 5000ms of silence since
the last datagram forces dismiss, reconnect, stage 0, and a fresh
handshake request. -/
theorem claim_C4_witness :
    ACClient.reconnectIfNeeded 5000 ⟨true, true, some 0, 1⟩
      = (⟨true, true, some 0, 0⟩,
         (if true = true
           then [handshakeRequest OPERATION_ID_SUBSCRIBE_DISMISS] else [])
           ++ [handshakeRequest OPERATION_ID_HANDSHAKE]) :=
  claim_C4_amended.1 5000 ⟨true, true, some 0, 1⟩ 0 rfl (by omega)

/-- Claim C9 (code bug): on a failed transmission the error callback of
`_sendHandshakeRequest` runs with the caller-default `this` (a plain
`function` expression, not the `_this` idiom used everywhere else in the
file), so `this.disconnect` is not the client's method and the callback
throws instead of disconnecting the client; had `this` been the ACClient,
the failure would have triggered its `disconnect()` exactly as the spec
says — the spec matches the evident intent, the code does not. -/
theorem claim_C9_send_failure_bug : ∀ s : ACClient.State,
    SendFailure.handshakeSendOnError SendFailure.sendErrorCallbackBinding
        true s = Except.error ()
    ∧ SendFailure.handshakeSendOnError SendFailure.ThisBinding.acClient
        true s = Except.ok (ACClient.disconnect s) := by
  intro s
  exact ⟨rfl, rfl⟩

/-- Claim C8 counterexample: the field bytes decoding to the code units
`['%', newline]` are returned unchanged — the claim's "truncate at the
first `%`, discarding to the end of the field" would give the empty
string, but the regex of line 36 does not match once a line terminator
follows the `%`. -/
theorem claim_C8_counterexample :
    stringUtf16 4 ⟨[37, 0, 10, 0], 0⟩
      = some ([37, 10], ⟨[37, 0, 10, 0], 4⟩)
    ∧ List.takeWhile (fun c => c != 37) ([37, 10] : List Nat) = []
    ∧ ([37, 10] : List Nat) ≠ [] := by
  refine ⟨rfl, rfl, by decide⟩

/-- Claim C8 (amended): `stringUtf16` always advances the cursor by
exactly `length` bytes and returns the UTF-16LE decoding of the (clamped)
`length`-byte slice with the `%`-regex replacement applied; whenever the
decoded field contains no line-terminator code unit — every well-formed
name field — that replacement equals truncation at the first `%` with all
following content discarded. -/
theorem claim_C8_amended (b : List Nat) (off len : Nat) :
    stringUtf16 len ⟨b, off⟩
      = some (stripAfterPercent (utf16Units ((b.drop off).take len)),
              ⟨b, off + len⟩)
    ∧ ((utf16Units ((b.drop off).take len)).all
          (fun c => !isLineTerminator c) = true →
        stripAfterPercent (utf16Units ((b.drop off).take len))
          = (utf16Units ((b.drop off).take len)).takeWhile
              (fun c => c != 37)) :=
  ⟨rfl, fun h => stripAfterPercent_of_no_terminator _ h⟩

/-- Witness for C8 (amended) at a concrete input: the bytes decoding to
`['A', '%', 'B']` are truncated at the `%`. -/
theorem claim_C8_witness :
    stripAfterPercent
        (utf16Units ((([65, 0, 37, 0, 66, 0] : List Nat).drop 0).take 6))
      = (utf16Units ((([65, 0, 37, 0, 66, 0] : List Nat).drop 0).take 6)).takeWhile
          (fun c => c != 37) :=
  (claim_C8_amended [65, 0, 37, 0, 66, 0] 0 6).2 (by decide)

end ACShiftingLeds
